import Mathlib

/-!
Verification development for the reconciliation and text-substitution core of
the compliance-analyzer repository.  The Lean definitions below are a shallow
embedding of the Python source:

  * `src/cs-scm/analyzer/processor.py`
      `extract_client_controls`, `extract_compliance_items`, `compare_results`
  * `src/cs-scm/export/excel_export.py`
      `categorize_findings`
  * the pydantic data models (`ControlValue`, `ClientControls`,
    `ComplianceItem`, `ComplianceScanResult`, `ComparisonResult`).

Python strings are modelled as Lean `String` (a structure over `List Char`);
`str.lower`/`str.strip` are modelled for the ASCII fragment, which is the case
split the source relies on.  Python `re.sub` with an escaped literal pattern
and the `IGNORECASE` flag is modelled by a literal case-insensitive scan, and
the replacement-template processing that `re.sub` applies to its `repl`
argument is modelled by `parse_template`.  Fallible code returns `Except`.
-/

deriving instance DecidableEq for Except

/-- ASCII uppercase-to-lowercase table used to model Python `str.lower` on the
ASCII fragment (the only fragment the source's labels and status texts use). -/
def uppercase_map : List (Char × Char) :=
  [('A', 'a'), ('B', 'b'), ('C', 'c'), ('D', 'd'), ('E', 'e'), ('F', 'f'),
   ('G', 'g'), ('H', 'h'), ('I', 'i'), ('J', 'j'), ('K', 'k'), ('L', 'l'),
   ('M', 'm'), ('N', 'n'), ('O', 'o'), ('P', 'p'), ('Q', 'q'), ('R', 'r'),
   ('S', 's'), ('T', 't'), ('U', 'u'), ('V', 'v'), ('W', 'w'), ('X', 'x'),
   ('Y', 'y'), ('Z', 'z')]

/-- Lowercase one character (ASCII model of Python `str.lower`). -/
def pyLowerChar (c : Char) : Char :=
  ((uppercase_map.find? (fun p => p.1 == c)).map (fun p => p.2)).getD c

/-- Model of Python `str.lower` (ASCII fragment). -/
def pyLower (s : String) : String :=
  ⟨s.data.map pyLowerChar⟩

/-- Whitespace characters recognised by Python `str.strip` (ASCII fragment). -/
def isPySpace (c : Char) : Bool :=
  c == ' ' || c == '\t' || c == '\n' || c == '\r' || c == '\x0b' || c == '\x0c'

/-- Model of Python `str.strip`: drop leading and trailing whitespace. -/
def pyStrip (s : String) : String :=
  ⟨((s.data.dropWhile isPySpace).reverse.dropWhile isPySpace).reverse⟩

/-- Python `c in s` for a single-character needle. -/
def containsChar (c : Char) (s : String) : Bool :=
  s.data.contains c

/-- Python `s.replace(a, b)` where `a` and `b` are single characters. -/
def replaceChar (a b : Char) (s : String) : String :=
  ⟨s.data.map (fun c => if c == a then b else c)⟩

/-- Python `s.replace(a, '')` where `a` is a single character. -/
def removeChar (a : Char) (s : String) : String :=
  ⟨s.data.filter (fun c => !(c == a))⟩

/-- Python `str(x)` on an optional string: `None` prints as `"None"`. -/
def pyStrOpt : Option String → String
  | none => "None"
  | some s => s

/-- Python truthiness of an optional string: `None` and `""` are falsy. -/
def pyTruthyOptStr : Option String → Bool
  | none => false
  | some s => !(s == "")

/-- Python `a or b` on optional strings (first truthy operand wins). -/
def pyOr (a b : Option String) : Option String :=
  if pyTruthyOptStr a then a else b

/-- Generic prefix test over `List Char`, parameterised by the character
comparison (exact for Python `in`, case-folded for `re.IGNORECASE`). -/
def isPrefixWith (eqc : Char → Char → Bool) : List Char → List Char → Bool
  | [], _ => true
  | _ :: _, [] => false
  | p :: ps, c :: cs => eqc p c && isPrefixWith eqc ps cs

/-- Generic substring-occurrence test over `List Char`. -/
def occursWith (eqc : Char → Char → Bool) (pat : List Char) : List Char → Bool
  | [] => isPrefixWith eqc pat []
  | c :: rest => isPrefixWith eqc pat (c :: rest) || occursWith eqc pat rest

/-- Case-insensitive character equality, as under `re.IGNORECASE` (ASCII). -/
def ciEq (a b : Char) : Bool := pyLowerChar a == pyLowerChar b

/-- Python `needle in hay` substring test (case-sensitive). -/
def containsSubstr (needle hay : String) : Bool :=
  occursWith (fun a b => a == b) needle.data hay.data

/-- Case-insensitive occurrence of a literal pattern, as matched by `re.sub`
with an escaped pattern and `re.IGNORECASE`. -/
def occursCI (pat text : List Char) : Bool :=
  occursWith ciEq pat text

/-- Replace every (leftmost, non-overlapping) case-insensitive occurrence of
the literal `pat` by `rep`, scanning left to right exactly as `re.sub` does.
The replacement is not rescanned.  (`pat` is never empty at the call sites:
it always has the shape `'[' … ']'`.) -/
def replaceCIAux (pat rep : List Char) : Nat → List Char → List Char
  | 0, l => l
  | fuel + 1, l =>
    match l with
    | [] => []
    | c :: rest =>
      if isPrefixWith ciEq pat (c :: rest) then
        rep ++ replaceCIAux pat rep fuel (rest.drop (pat.length - 1))
      else
        c :: replaceCIAux pat rep fuel rest

/-- Entry point of the scan: the fuel `l.length` always suffices because each
step consumes at least one character of the remaining text. -/
def replaceCI (pat rep l : List Char) : List Char :=
  replaceCIAux pat rep l.length l

/-- Insert a string into a Python-set model (a duplicate-free list). -/
def addToSet (l : List String) (s : String) : List String :=
  if s ∈ l then l else l ++ [s]

/-- Octal-digit test used by the replacement-template model. -/
def isOctDigit (c : Char) : Bool := '0' ≤ c && c ≤ '7'

/-- Known single-character backslash escapes that Python's `re` module expands
inside a replacement template. -/
def template_escapes : List (Char × Char) :=
  [('a', '\x07'), ('b', '\x08'), ('f', '\x0c'), ('n', '\n'), ('r', '\r'),
   ('t', '\t'), ('v', '\x0b'), ('\\', '\\')]

/-- Embeds the replacement-template processing that Python `re.sub` applies to
its `repl` argument (`sre_parse.parse_template`): known escapes such as
`\t` expand to control characters, `\\` to a backslash, `\0`(+up to two octal
digits) to an octal escape, numeric and `\g` references error out when the
pattern has no groups (the source's patterns never have groups), any other
escaped ASCII letter raises `bad escape`, a trailing backslash raises, and an
escaped non-alphanumeric character is kept verbatim with its backslash. -/
def parse_templateAux : Nat → List Char → Except String (List Char)
  | 0, _ => .ok []
  | fuel + 1, l =>
    match l with
    | [] => .ok []
    | '\\' :: rest =>
      match rest with
      | [] => .error "bad escape (end of pattern)"
      | c :: rest2 =>
        match (template_escapes.find? (fun p => p.1 == c)).map (fun p => p.2) with
        | some e => (parse_templateAux fuel rest2).map (fun t => e :: t)
        | none =>
          if c == '0' then
            let ds := (rest2.take 2).takeWhile isOctDigit
            let value := ds.foldl (fun acc d => acc * 8 + (d.toNat - 48)) 0
            (parse_templateAux fuel (rest2.drop ds.length)).map
              (fun t => Char.ofNat value :: t)
          else if c.isDigit || c == 'g' then
            .error "invalid group reference"
          else if c.isAlpha then
            .error ("bad escape " ++ String.mk ['\\', c])
          else
            (parse_templateAux fuel rest2).map (fun t => '\\' :: c :: t)
    | c :: rest => (parse_templateAux fuel rest).map (fun t => c :: t)

/-- Entry point of the template scan; the fuel `l.length` always suffices
because each step consumes at least one character. -/
def parse_template (l : List Char) : Except String (List Char) :=
  parse_templateAux l.length l

/-- One `re.sub` call from `extract_compliance_items` (processor.py line 214):
`re.sub(f'\\[(re.escape placeholder)\\]', value, text, flags=re.IGNORECASE)`.
The escaped pattern is the literal `[placeholder]`, matched case-insensitively;
`value` is processed as a replacement template. -/
def apply_placeholder (text : String) (placeholder value : String) :
    Except String String :=
  match parse_template value.data with
  | .error e => .error e
  | .ok rep => .ok ⟨replaceCI ('[' :: placeholder.data ++ [']']) rep text.data⟩

/-- The placeholder-substitution loop of `extract_compliance_items`
(processor.py lines 211-214): fold `re.sub` over the mapping's entries in
iteration order; a raised error aborts the pass. -/
def substitute (placeholder_mapping : List (String × String)) (text : String) :
    Except String String :=
  placeholder_mapping.foldlM (fun acc pv => apply_placeholder acc pv.1 pv.2) text

/-- Severity values may be strings or integers (`Optional[Union[str, int]]`). -/
abbrev StrOrInt := String ⊕ Int

/-- A raw cell value from the spreadsheet service: the cells the core reads
hold either text or a checkbox boolean. -/
inductive CellVal
  | str (s : String)
  | bool (b : Bool)
deriving DecidableEq

/-- Python `str(x)` on a raw cell value. -/
def cellToStr : CellVal → String
  | .str s => s
  | .bool b => if b then "True" else "False"

/-- Python truthiness of a raw cell value. -/
def cellTruthy : CellVal → Bool
  | .str s => !(s == "")
  | .bool b => b

/-- One column header of a sheet: `{id, title}`. -/
structure Column where
  id : Nat
  title : String
deriving DecidableEq

/-- One cell of a row: `{column_id, value, display_value?}`. -/
structure Cell where
  column_id : Nat
  value : Option CellVal := none
  display_value : Option String := none
deriving DecidableEq

/-- One row of a sheet: `{cells}`. -/
structure Row where
  cells : List Cell := []
deriving DecidableEq

/-- Raw sheet data handed to the core: `{columns, rows}`. -/
structure SheetData where
  columns : List Column := []
  rows : List Row := []
deriving DecidableEq

/-- `models.ControlValue`: a placeholder name and its client value. -/
structure ControlValue where
  placeholder : String
  value : String
deriving DecidableEq

/-- `models.ClientControls`: all control values of one client. -/
structure ClientControls where
  client : String
  controls : List ControlValue := []
deriving DecidableEq

/-- Insert into an association list with Python-dict semantics: an existing
key keeps its position and gets the new value, a new key is appended. -/
def dictInsert (m : List (String × String)) (k v : String) :
    List (String × String) :=
  if m.any (fun p => p.1 == k) then
    m.map (fun p => if p.1 == k then (k, v) else p)
  else
    m ++ [(k, v)]

/-- `ClientControls.to_dict`: `{control.placeholder: control.value for ...}` —
first-occurrence key order, last-written value wins. -/
def ClientControls.to_dict (cc : ClientControls) : List (String × String) :=
  cc.controls.foldl (fun m cv => dictInsert m cv.placeholder cv.value) []

/-- `models.ComplianceItem` (the compliance-register entry).  The analyzer
models module of this tree is not under `src/`; its fields follow the older
checked-in models file plus the fields `extract_compliance_items` and the
POAM processors actually populate (`additional_context`). -/
structure ComplianceItem where
  compliance_id : Option String := none
  finding_description : Option String := none
  srg_solution : Option String := none
  deviation_type : Option String := none
  deviation_rationale : Option String := none
  supporting_documents : Option String := none
  deviation_status : Option String := none
  should_fix : Option Bool := none
  comments : Option String := none
  additional_context : Option String := none
  status : Option String := none
  severity : Option StrOrInt := none
  hostname : Option String := none
  replaced_placeholders : List String := []
  original_rationale : Option String := none
deriving DecidableEq

/-- `models.ComplianceScanResult` (one scan/POAM finding).  Fields follow the
older checked-in models file plus the fields the POAM processors populate
(`poam_id`, `srg_solution`, `os_type`). -/
structure ComplianceScanResult where
  compliance_id : String
  status : String
  severity : Option StrOrInt := none
  hostname : Option String := none
  description : Option String := none
  details : Option String := none
  poam_id : Option String := none
  srg_solution : Option String := none
  os_type : Option String := none
  additional_fields : List (String × CellVal) := []
deriving DecidableEq

/-- The Python dict produced by `ComplianceItem.dict()` and then possibly
extended by `compare_results` with the capitalised keys `'Status'`,
`'Severity'`, `'Hostname'`, `'POAM ID'`, `'Finding Description'` and by
`categorize_findings` with `'Source'`.  Those extra keys are distinct from
the lowercase model fields, so they are separate fields here. -/
structure ItemDict where
  compliance_id : Option String := none
  finding_description : Option String := none
  srg_solution : Option String := none
  deviation_type : Option String := none
  deviation_rationale : Option String := none
  supporting_documents : Option String := none
  deviation_status : Option String := none
  should_fix : Option Bool := none
  comments : Option String := none
  additional_context : Option String := none
  status : Option String := none
  severity : Option StrOrInt := none
  hostname : Option String := none
  replaced_placeholders : List String := []
  original_rationale : Option String := none
  Status : Option String := none
  Severity : Option StrOrInt := none
  Hostname : Option String := none
  POAM_ID : Option String := none
  Finding_Description : Option String := none
  Source : Option String := none
deriving DecidableEq

/-- `ComplianceItem.dict()`: the model's own fields; no capitalised keys. -/
def ComplianceItem.dict (item : ComplianceItem) : ItemDict :=
  { compliance_id := item.compliance_id
    finding_description := item.finding_description
    srg_solution := item.srg_solution
    deviation_type := item.deviation_type
    deviation_rationale := item.deviation_rationale
    supporting_documents := item.supporting_documents
    deviation_status := item.deviation_status
    should_fix := item.should_fix
    comments := item.comments
    additional_context := item.additional_context
    status := item.status
    severity := item.severity
    hostname := item.hostname
    replaced_placeholders := item.replaced_placeholders
    original_rationale := item.original_rationale }

/-- `models.ComparisonResult`.  The wall-clock `comparison_date` field is not
modelled (it is never read by the core). -/
structure ComparisonResult where
  matched_items : List ItemDict := []
  unmatched_scan_items : List ComplianceScanResult := []
  unmatched_smartsheet_items : List ComplianceItem := []
  scan_count : Nat := 0
  smartsheet_count : Nat := 0
  match_count : Nat := 0
deriving DecidableEq

/-- The placeholder-name variant derivation of `extract_client_controls`
(processor.py lines 113-140): lowercase of the title; the underscore→space
form if the title has an underscore; the space→underscore form if it has a
space; the separator-free form; and the hard-coded `cloud_provider` /
`cloud provider` symmetry pair.  The Python `set` is modelled as a
duplicate-free list. -/
def placeholder_variants (orig_title : String) : List String :=
  let variants : List String := []
  let variants := addToSet variants (pyLower orig_title)
  let variants :=
    if containsChar '_' orig_title then
      addToSet variants (replaceChar '_' ' ' (pyLower orig_title))
    else variants
  let variants :=
    if containsChar ' ' orig_title then
      addToSet variants (replaceChar ' ' '_' (pyLower orig_title))
    else variants
  let variants := addToSet variants (removeChar '_' (removeChar ' ' (pyLower orig_title)))
  let variants :=
    if "cloud_provider" ∈ variants then addToSet variants "cloud provider"
    else variants
  let variants :=
    if "cloud provider" ∈ variants then addToSet variants "cloud_provider"
    else variants
  variants

/-- The column map built at the top of `extract_client_controls`
(`column_map[column['title']] = column['id']`): title-keyed dict. -/
def build_column_map (columns : List Column) : List (String × Nat) :=
  columns.foldl
    (fun m column =>
      if m.any (fun p => p.1 == column.title) then
        m.map (fun p => if p.1 == column.title then (column.title, column.id) else p)
      else
        m ++ [(column.title, column.id)])
    []

/-- `extract_client_controls` (processor.py lines 43-151): find the `CLIENT`
column, keep rows whose client cell equals the selected client, and emit one
`ControlValue` per placeholder variant per non-null cell.  Python's
`if not client_col_id` is falsy for both a missing column and id `0`. -/
def extract_client_controls (control_sheet_data : SheetData)
    (selected_client : String) : ClientControls :=
  let client_controls : ClientControls := { client := selected_client }
  let column_map := build_column_map control_sheet_data.columns
  let client_col_id :=
    (control_sheet_data.columns.reverse.find? (fun c => c.title == "CLIENT")).map
      (fun c => c.id)
  match client_col_id with
  | none => client_controls
  | some cid =>
    if cid == 0 then client_controls
    else
      { client_controls with
        controls :=
          control_sheet_data.rows.foldl
            (fun acc row =>
              let client_value :=
                (row.cells.find? (fun cell => cell.column_id == cid)).bind
                  (fun cell => cell.value)
              if !(client_value == some (CellVal.str selected_client)) then acc
              else
                row.cells.foldl
                  (fun acc cell =>
                    if cell.column_id == cid then acc
                    else
                      match column_map.find? (fun p => p.2 == cell.column_id) with
                      | none => acc
                      | some p =>
                        -- `if col_title and ...`: an empty title is falsy too
                        if p.1 == "" then acc
                        else
                        match cell.value with
                        | none => acc
                        | some v =>
                          let value :=
                            match cell.display_value with
                            | some d => if d == "" then cellToStr v else d
                            | none => cellToStr v
                          acc ++ (placeholder_variants p.1).map
                            (fun variant => ControlValue.mk variant value))
                  acc)
            [] }

/-- The field-to-column map of `extract_compliance_items` (processor.py
lines 164-185), resolved by the source's if/elif chain over the lowercased,
stripped column titles; a later matching column overwrites an earlier one. -/
structure ColumnIds where
  compliance_id : Option Nat := none
  finding_description : Option Nat := none
  srg_solution : Option Nat := none
  deviation_type : Option Nat := none
  deviation_rationale : Option Nat := none
  supporting_documents : Option Nat := none
  deviation_status : Option Nat := none
  should_fix : Option Nat := none
  comments : Option Nat := none
  additional_context : Option Nat := none
deriving DecidableEq

/-- Builds `column_ids` exactly as the source's if/elif chain does. -/
def map_columns (columns : List Column) : ColumnIds :=
  columns.foldl
    (fun acc column =>
      let column_title := pyStrip (pyLower column.title)
      if containsSubstr "compliance id" column_title then
        { acc with compliance_id := some column.id }
      else if containsSubstr "finding description" column_title then
        { acc with finding_description := some column.id }
      else if containsSubstr "srg solution" column_title then
        { acc with srg_solution := some column.id }
      else if containsSubstr "deviation type" column_title then
        { acc with deviation_type := some column.id }
      else if containsSubstr "deviation rationale" column_title &&
              !(containsSubstr "status" column_title) then
        { acc with deviation_rationale := some column.id }
      else if containsSubstr "supporting documents" column_title then
        { acc with supporting_documents := some column.id }
      else if containsSubstr "deviation rationale status" column_title then
        { acc with deviation_status := some column.id }
      else if containsSubstr "should fix" column_title then
        { acc with should_fix := some column.id }
      else if containsSubstr "comments" column_title then
        { acc with comments := some column.id }
      else if containsSubstr "additional context" column_title then
        { acc with additional_context := some column.id }
      else acc)
    {}

/-- `normalize_boolean` (processor.py lines 187-193): tri-state boolean from
free-form cell content; unrecognised text maps to `None`. -/
def normalize_boolean : Option CellVal → Option Bool
  | none => none
  | some (.bool b) => some b
  | some (.str s) =>
    let str_value := pyLower (pyStrip s)
    if str_value ∈ ["true", "yes", "y", "1", "checked", "x", "on", "t"] then
      some true
    else if str_value ∈ ["false", "no", "n", "0", "unchecked", "", "off", "f"] then
      some false
    else none

/-- The per-row `row_values_by_col_id` lookup (processor.py line 200): a dict
keyed by `column_id` (a later duplicate cell overwrites an earlier one), with
`.get` returning `None` for a missing key or a null cell. -/
def row_value (row : Row) (col_id : Nat) : Option CellVal :=
  (row.cells.reverse.find? (fun cell => cell.column_id == col_id)).bind
    (fun cell => cell.value)

/-- The `deviation_rationale` branch of the row loop (processor.py lines
208-215): `cell_value or ''`, then the placeholder-substitution loop.
Returns `ok none` when no rationale column was resolved (the field is then
absent from `item_data` and the model falls back to its `None` default). -/
def rationale_of (column_ids : ColumnIds)
    (placeholder_mapping : List (String × String)) (row : Row) :
    Except String (Option String) :=
  match column_ids.deviation_rationale with
  | none => .ok none
  | some cid =>
    let original_text :=
      match row_value row cid with
      | none => ""
      | some v => if cellTruthy v then cellToStr v else ""
    (substitute placeholder_mapping original_text).map (fun t => some t)

/-- Read one plain field of `item_data` (processor.py lines 216-218):
`None` when the field's column is unresolved or the cell is empty. -/
def plain_field (column_ids_field : Option Nat) (row : Row) : Option String :=
  match column_ids_field with
  | none => none
  | some cid => (row_value row cid).map cellToStr

/-- One iteration of the row loop of `extract_compliance_items` (processor.py
lines 196-226): build `item_data`, and create a `ComplianceItem` only when
`item_data.get('compliance_id') is not None` (note: only `None` is rejected —
an empty-string identifier passes the check).  A substitution error aborts
the pass, exactly as the uncaught `re.error` would. -/
def process_row (column_ids : ColumnIds)
    (placeholder_mapping : List (String × String)) (row : Row) :
    Except String (Option ComplianceItem) :=
  match rationale_of column_ids placeholder_mapping row with
  | .error e => .error e
  | .ok dr =>
    match column_ids.compliance_id.bind (fun cid => row_value row cid) with
    | none => .ok none
    | some idv =>
      .ok (some
        { compliance_id := some (cellToStr idv)
          finding_description := plain_field column_ids.finding_description row
          srg_solution := plain_field column_ids.srg_solution row
          deviation_type := plain_field column_ids.deviation_type row
          deviation_rationale := dr
          supporting_documents := plain_field column_ids.supporting_documents row
          deviation_status := plain_field column_ids.deviation_status row
          should_fix :=
            match column_ids.should_fix with
            | none => none
            | some cid => normalize_boolean (row_value row cid)
          comments := plain_field column_ids.comments row
          additional_context := plain_field column_ids.additional_context row })

/-- `extract_compliance_items` (processor.py lines 154-230): resolve the
column map once, then process every row, keeping the created items. -/
def extract_compliance_items (compliance_sheet_data : SheetData)
    (client_controls : ClientControls) : Except String (List ComplianceItem) :=
  let placeholder_mapping := client_controls.to_dict
  let column_ids := map_columns compliance_sheet_data.columns
  compliance_sheet_data.rows.foldlM
    (fun acc row =>
      (process_row column_ids placeholder_mapping row).map
        (fun res =>
          match res with
          | some item => acc ++ [item]
          | none => acc))
    []

/-- The scan-side identifier set of `compare_results` (processor.py line 242):
`{str(item.compliance_id).strip() for item in scan_results if item.compliance_id}`.
The Python set is modelled as a duplicate-free list. -/
def scan_id_set (scan_results : List ComplianceScanResult) : List String :=
  ((scan_results.filter (fun item => !(item.compliance_id == ""))).map
    (fun item => pyStrip item.compliance_id)).dedup

/-- The register-side identifier set of `compare_results` (line 243). -/
def smartsheet_id_set (smartsheet_results : List ComplianceItem) : List String :=
  ((smartsheet_results.filter (fun item => pyTruthyOptStr item.compliance_id)).map
    (fun item => pyStrip (pyStrOpt item.compliance_id))).dedup

/-- `matching_ids = scan_ids.intersection(smartsheet_ids)` (line 245),
determinised as the scan-side set filtered by register-side membership. -/
def matching_ids (scan_results : List ComplianceScanResult)
    (smartsheet_results : List ComplianceItem) : List String :=
  (scan_id_set scan_results).filter
    (fun comp_id => decide (comp_id ∈ smartsheet_id_set smartsheet_results))

/-- `combined_item = smartsheet_item.dict()` updated with the scan item's
`'Status'`, `'Severity'`, `'Hostname'`, `'POAM ID'`, the
`'Finding Description'` preference (`smartsheet or scan`), and the scan
item's `srg_solution` (processor.py lines 254-264). -/
def combine_item (scan_item : ComplianceScanResult)
    (smartsheet_item : ComplianceItem) : ItemDict :=
  { smartsheet_item.dict with
    Status := some scan_item.status
    Severity := scan_item.severity
    Hostname := scan_item.hostname
    POAM_ID := scan_item.poam_id
    Finding_Description := pyOr smartsheet_item.finding_description scan_item.description
    srg_solution := scan_item.srg_solution }

/-- One iteration of the pairing loop of `compare_results` (processor.py
lines 249-265): `next(...)` picks the first item on each side whose stripped
identifier equals `comp_id`; the combined dict is appended only when both
sides produced one. -/
def pair_for (scan_results : List ComplianceScanResult)
    (smartsheet_results : List ComplianceItem) (comp_id : String) :
    Option ItemDict :=
  match
    scan_results.find? (fun item => pyStrip item.compliance_id == comp_id),
    smartsheet_results.find?
      (fun item => pyStrip (pyStrOpt item.compliance_id) == comp_id)
  with
  | some scan_item, some smartsheet_item =>
    some (combine_item scan_item smartsheet_item)
  | _, _ => none

/-- `compare_results` (processor.py lines 232-270): counts over the full input
sequences, first-occurrence pairing per matching identifier, and unmatched
lists filtered by the matching-id set. -/
def compare_results (scan_results : List ComplianceScanResult)
    (smartsheet_results : List ComplianceItem) : ComparisonResult :=
  let matching := matching_ids scan_results smartsheet_results
  { scan_count := scan_results.length
    smartsheet_count := smartsheet_results.length
    match_count := matching.length
    matched_items := matching.filterMap (pair_for scan_results smartsheet_results)
    unmatched_scan_items :=
      scan_results.filter
        (fun item => !(decide (pyStrip item.compliance_id ∈ matching)))
    unmatched_smartsheet_items :=
      smartsheet_results.filter
        (fun item => !(decide (pyStrip (pyStrOpt item.compliance_id) ∈ matching))) }

/-- The five output lists of `categorize_findings` (excel_export.py
lines 67-73). -/
structure CategorizedFindings where
  approved : List ItemDict := []
  review : List ItemDict := []
  should_fix : List ItemDict := []
  unassessed : List ItemDict := []
  missing_from_scm : List ComplianceScanResult := []
deriving DecidableEq

/-- `approved_indicators` (excel_export.py line 75). -/
def approved_indicators : List String := ["approved", "a", "accept", "compliant", "pass"]

/-- `review_indicators` (excel_export.py line 76). -/
def review_indicators : List String := ["review", "pending"]

/-- `status = str(item_dict.get('deviation_status', '')).lower().strip()`
(excel_export.py line 84); the key is always present in the dict, so the
default is unreachable and `None` stringifies to `"None"`. -/
def status_text (item_dict : ItemDict) : String :=
  pyStrip (pyLower (pyStrOpt item_dict.deviation_status))

/-- The four categories of `categorize_item`. -/
inductive Bucket
  | approved
  | review
  | should_fix
  | unassessed
deriving DecidableEq

/-- The if/elif decision of `categorize_item` (excel_export.py lines 84-96):
`should_fix` truthiness first, then the approval indicators, then the review
indicators, else un-assessed.  `item_dict.get('should_fix', False)` is the
field's value (possibly `None`); only `True` is truthy. -/
def bucket_of (item_dict : ItemDict) : Bucket :=
  let status := status_text item_dict
  if item_dict.should_fix == some true then Bucket.should_fix
  else if approved_indicators.any (fun indicator => containsSubstr indicator status) then
    Bucket.approved
  else if review_indicators.any (fun indicator => containsSubstr indicator status) then
    Bucket.review
  else Bucket.unassessed

/-- The `Source` tagging at the top of `categorize_item` (lines 80-81). -/
def prep_item (item_dict : ItemDict) (source : String) : ItemDict :=
  if source == "" then item_dict else { item_dict with Source := some source }

/-- Append the item to the list its bucket selects (lines 88-96). -/
def add_categorized (findings : CategorizedFindings) (item_dict : ItemDict) :
    CategorizedFindings :=
  match bucket_of item_dict with
  | .should_fix => { findings with should_fix := findings.should_fix ++ [item_dict] }
  | .approved => { findings with approved := findings.approved ++ [item_dict] }
  | .review => { findings with review := findings.review ++ [item_dict] }
  | .unassessed => { findings with unassessed := findings.unassessed ++ [item_dict] }

/-- `categorize_item(item, source)` (excel_export.py lines 78-96). -/
def categorize_item (findings : CategorizedFindings) (item_dict : ItemDict)
    (source : String) : CategorizedFindings :=
  add_categorized findings (prep_item item_dict source)

/-- `categorize_findings` (excel_export.py lines 65-106): matched items first
(tagged `'Matched'`), then the Smartsheet-only items (tagged
`'Smartsheet Only'`); unmatched scan items go straight to
`missing_from_scm`. -/
def categorize_findings (comparison : ComparisonResult) : CategorizedFindings :=
  let findings : CategorizedFindings :=
    { missing_from_scm := comparison.unmatched_scan_items }
  let findings :=
    comparison.matched_items.foldl
      (fun fs item => categorize_item fs item "Matched") findings
  comparison.unmatched_smartsheet_items.foldl
    (fun fs item => categorize_item fs item.dict "Smartsheet Only") findings

/-- The sequence of items `categorize_findings` feeds through
`categorize_item`, with their `Source` tags applied: all matched items, then
all Smartsheet-only items.  The four status buckets partition exactly this
list. -/
def categorize_inputs (comparison : ComparisonResult) : List ItemDict :=
  comparison.matched_items.map (fun item => prep_item item "Matched") ++
    comparison.unmatched_smartsheet_items.map
      (fun item => prep_item item.dict "Smartsheet Only")

/-- The stripped identifier under which a combined matched row is keyed
(`str(...).strip()` of its `compliance_id`, which the combine step copies
from the register item). -/
def matched_row_id (e : ItemDict) : String :=
  pyStrip (pyStrOpt e.compliance_id)

/-- Concrete scan input with a duplicated identifier, used to witness the
first-occurrence pairing property. -/
def c5_scan : List ComplianceScanResult :=
  [{ compliance_id := "X-01", status := "Fail" },
   { compliance_id := "X-01", status := "Error" }]

/-- Concrete register input matching `c5_scan` on `"X-01"`. -/
def c5_sheet : List ComplianceItem :=
  [{ compliance_id := some "X-01", deviation_status := some "Pending Review" }]

/-- Concrete sheet whose single row has an empty-string identifier cell. -/
def c8_sheet : SheetData :=
  { columns := [{ id := 1, title := "Compliance ID" }],
    rows := [{ cells := [{ column_id := 1, value := some (CellVal.str "") }] }] }

/-- Concrete item used to witness the `should_fix`-priority property: a
matched item flagged `should_fix = True` whose status text is `"Approved"`. -/
def c3_item : ItemDict :=
  { should_fix := some true, deviation_status := some "Approved",
    Source := some "Matched" }

/-- Concrete comparison holding `c3_item` as its only matched item. -/
def c3_comparison : ComparisonResult :=
  { matched_items := [c3_item] }

/-- Folding the categorizer over a list appends, to each of the four status
buckets, exactly the items whose decision lands there; the
`missing_from_scm` list is untouched. -/
theorem foldl_add_categorized (l : List ItemDict) (fs : CategorizedFindings) :
    l.foldl add_categorized fs =
      { approved := fs.approved ++ l.filter (fun i => bucket_of i == Bucket.approved)
        review := fs.review ++ l.filter (fun i => bucket_of i == Bucket.review)
        should_fix := fs.should_fix ++ l.filter (fun i => bucket_of i == Bucket.should_fix)
        unassessed := fs.unassessed ++ l.filter (fun i => bucket_of i == Bucket.unassessed)
        missing_from_scm := fs.missing_from_scm } := by
  induction l generalizing fs with
  | nil => simp
  | cons a l ih =>
    rw [List.foldl_cons, ih]
    rcases h : bucket_of a <;>
      simp [add_categorized, h, List.filter_cons]

/-- `categorize_findings` computed in closed form: each status bucket is the
filter of the tagged input sequence by its own decision, and
`missing_from_scm` is exactly the unmatched scan items. -/
theorem categorize_findings_eq (comparison : ComparisonResult) :
    categorize_findings comparison =
      { approved := (categorize_inputs comparison).filter
          (fun i => bucket_of i == Bucket.approved)
        review := (categorize_inputs comparison).filter
          (fun i => bucket_of i == Bucket.review)
        should_fix := (categorize_inputs comparison).filter
          (fun i => bucket_of i == Bucket.should_fix)
        unassessed := (categorize_inputs comparison).filter
          (fun i => bucket_of i == Bucket.unassessed)
        missing_from_scm := comparison.unmatched_scan_items } := by
  unfold categorize_findings categorize_inputs
  simp only [categorize_item]
  rw [← List.foldl_map (fun item => prep_item item "Matched") add_categorized,
      ← List.foldl_map (fun item : ComplianceItem => prep_item item.dict "Smartsheet Only")
        add_categorized,
      foldl_add_categorized, foldl_add_categorized]
  simp [List.filter_append, List.append_assoc]

/-- Concatenating the four bucket filters is a permutation of the input:
every item lands in exactly one bucket. -/
theorem filter_buckets_perm (l : List ItemDict) :
    List.Perm
      (l.filter (fun i => bucket_of i == Bucket.should_fix) ++
        l.filter (fun i => bucket_of i == Bucket.approved) ++
        l.filter (fun i => bucket_of i == Bucket.review) ++
        l.filter (fun i => bucket_of i == Bucket.unassessed))
      l := by
  induction l with
  | nil => simp
  | cons a l ih =>
    rcases h : bucket_of a with _ | _ | _ | _ <;>
      simp only [List.filter_cons, h, beq_iff_eq, reduceCtorEq, if_false, if_true,
        decide_True, decide_False, List.cons_append, List.append_assoc]
    case approved =>
      have hmid :
          (l.filter (fun i => bucket_of i == Bucket.should_fix) ++
            a :: (l.filter (fun i => bucket_of i == Bucket.approved) ++
              (l.filter (fun i => bucket_of i == Bucket.review) ++
                l.filter (fun i => bucket_of i == Bucket.unassessed)))).Perm
          (a :: (l.filter (fun i => bucket_of i == Bucket.should_fix) ++
            (l.filter (fun i => bucket_of i == Bucket.approved) ++
              (l.filter (fun i => bucket_of i == Bucket.review) ++
                l.filter (fun i => bucket_of i == Bucket.unassessed))))) :=
        List.perm_middle
      refine hmid.trans ?_
      refine List.Perm.cons a ?_
      simpa [List.append_assoc] using ih
    case review =>
      have hmid :
          ((l.filter (fun i => bucket_of i == Bucket.should_fix) ++
              l.filter (fun i => bucket_of i == Bucket.approved)) ++
            a :: (l.filter (fun i => bucket_of i == Bucket.review) ++
              l.filter (fun i => bucket_of i == Bucket.unassessed))).Perm
          (a :: ((l.filter (fun i => bucket_of i == Bucket.should_fix) ++
              l.filter (fun i => bucket_of i == Bucket.approved)) ++
            (l.filter (fun i => bucket_of i == Bucket.review) ++
              l.filter (fun i => bucket_of i == Bucket.unassessed)))) :=
        List.perm_middle
      refine List.Perm.trans ?_ (hmid.trans (List.Perm.cons a ?_))
      · simp [List.append_assoc]
      · simpa [List.append_assoc] using ih
    case should_fix =>
      exact List.Perm.cons a (by simpa [List.append_assoc] using ih)
    case unassessed =>
      have hmid :
          (((l.filter (fun i => bucket_of i == Bucket.should_fix) ++
              l.filter (fun i => bucket_of i == Bucket.approved)) ++
              l.filter (fun i => bucket_of i == Bucket.review)) ++
            a :: l.filter (fun i => bucket_of i == Bucket.unassessed)).Perm
          (a :: (((l.filter (fun i => bucket_of i == Bucket.should_fix) ++
              l.filter (fun i => bucket_of i == Bucket.approved)) ++
              l.filter (fun i => bucket_of i == Bucket.review)) ++
            l.filter (fun i => bucket_of i == Bucket.unassessed))) :=
        List.perm_middle
      refine List.Perm.trans ?_ (hmid.trans (List.Perm.cons a ?_))
      · simp [List.append_assoc]
      · simpa [List.append_assoc] using ih

/-- C1: for every ComparisonResult, the categorizer places each matched item
and each unmatched-register item into exactly one of the four status buckets
(`should_fix`, `approved`, `review`, `unassessed`): each bucket is exactly the
filter of the tagged input sequence by its own decision, and the
concatenation of the four buckets is a permutation of that sequence — no item
is omitted and none appears in more than one bucket. -/
theorem claim_c1_categorizer_partition (comparison : ComparisonResult) :
    (categorize_findings comparison).should_fix
        = (categorize_inputs comparison).filter (fun i => bucket_of i == Bucket.should_fix)
      ∧ (categorize_findings comparison).approved
        = (categorize_inputs comparison).filter (fun i => bucket_of i == Bucket.approved)
      ∧ (categorize_findings comparison).review
        = (categorize_inputs comparison).filter (fun i => bucket_of i == Bucket.review)
      ∧ (categorize_findings comparison).unassessed
        = (categorize_inputs comparison).filter (fun i => bucket_of i == Bucket.unassessed)
      ∧ List.Perm
          ((categorize_findings comparison).should_fix ++
            (categorize_findings comparison).approved ++
            (categorize_findings comparison).review ++
            (categorize_findings comparison).unassessed)
          (categorize_inputs comparison) := by
  rw [categorize_findings_eq]
  exact ⟨rfl, rfl, rfl, rfl, filter_buckets_perm (categorize_inputs comparison)⟩

/-- C3: an item with `should_fix = true` is always placed in the `should_fix`
bucket — never in `approved` — regardless of its `deviation_status` text. -/
theorem claim_c3_should_fix_priority (comparison : ComparisonResult) (item : ItemDict)
    (hmem : item ∈ categorize_inputs comparison) (hsf : item.should_fix = some true) :
    item ∈ (categorize_findings comparison).should_fix
      ∧ item ∉ (categorize_findings comparison).approved := by
  have hb : bucket_of item = Bucket.should_fix := by
    unfold bucket_of
    rw [hsf]
    simp
  rw [categorize_findings_eq]
  refine ⟨?_, ?_⟩
  · simp [List.mem_filter, hmem, hb]
  · simp [List.mem_filter, hb]

/-- Witness for C3 at a concrete input: a matched item with
`should_fix = true` and `deviation_status = "Approved"` lands in `should_fix`
and not in `approved`. -/
theorem claim_c3_witness :
    (c3_item ∈ categorize_inputs c3_comparison ∧ c3_item.should_fix = some true)
    ∧ (c3_item ∈ (categorize_findings c3_comparison).should_fix
        ∧ c3_item ∉ (categorize_findings c3_comparison).approved) :=
  ⟨⟨by decide, rfl⟩,
    claim_c3_should_fix_priority c3_comparison c3_item (by decide) rfl⟩

/-- C4 (code bug evidence): a falsy-`should_fix` item whose
`deviation_status` is `"draft"` is placed in `approved` by the code (the
single-letter indicator `'a'` is a substring of `"draft"`), although the
code's own comments say such items go to un-assessed; null and blank statuses
do go to `unassessed`. -/
theorem claim_c4_draft_misbucketed :
    bucket_of { deviation_status := some "draft" } = Bucket.approved
      ∧ bucket_of { deviation_status := none } = Bucket.unassessed
      ∧ bucket_of { deviation_status := some "" } = Bucket.unassessed :=
  ⟨by decide, by decide, by decide⟩

/-- C9: the categorizer buckets an item with unknown (`None`) `should_fix`
exactly like one with `should_fix = False` and the same status text: only
`True` fires the first rule, so the tri-state distinction is not observable
in the categorized output. -/
theorem claim_c9_unknown_should_fix_like_false (item : ItemDict) :
    bucket_of { item with should_fix := none }
      = bucket_of { item with should_fix := some false } := rfl

/-- A `filterMap` whose function is `some` on every element of the list
preserves the length. -/
theorem length_filterMap_of_isSome {α β : Type} (f : α → Option β) (l : List α)
    (h : ∀ a ∈ l, (f a).isSome) : (l.filterMap f).length = l.length := by
  induction l with
  | nil => simp
  | cons a l ih =>
    rcases hfa : f a with _ | b
    · exact absurd (h a (List.mem_cons_self a l)) (by simp [hfa])
    · simp only [List.filterMap_cons, hfa, List.length_cons]
      rw [ih (fun x hx => h x (List.mem_cons_of_mem a hx))]

/-- Membership in the matching-id intersection gives membership in both
per-side identifier sets. -/
theorem mem_matching_ids {scan_results : List ComplianceScanResult}
    {smartsheet_results : List ComplianceItem} {comp_id : String}
    (h : comp_id ∈ matching_ids scan_results smartsheet_results) :
    comp_id ∈ scan_id_set scan_results
      ∧ comp_id ∈ smartsheet_id_set smartsheet_results := by
  unfold matching_ids at h
  rw [List.mem_filter] at h
  exact ⟨h.1, by simpa using h.2⟩

/-- Every identifier of the scan-side set is realised by some scan item, so
the `next(...)` lookup succeeds. -/
theorem scan_find?_isSome {scan_results : List ComplianceScanResult}
    {comp_id : String} (h : comp_id ∈ scan_id_set scan_results) :
    (scan_results.find?
      (fun item => pyStrip item.compliance_id == comp_id)).isSome := by
  unfold scan_id_set at h
  rw [List.mem_dedup, List.mem_map] at h
  obtain ⟨item, hmem, hid⟩ := h
  rw [List.mem_filter] at hmem
  rw [List.find?_isSome]
  exact ⟨item, hmem.1, by simp [hid]⟩

/-- Every identifier of the register-side set is realised by some register
item, so the `next(...)` lookup succeeds. -/
theorem smartsheet_find?_isSome {smartsheet_results : List ComplianceItem}
    {comp_id : String} (h : comp_id ∈ smartsheet_id_set smartsheet_results) :
    (smartsheet_results.find?
      (fun item => pyStrip (pyStrOpt item.compliance_id) == comp_id)).isSome := by
  unfold smartsheet_id_set at h
  rw [List.mem_dedup, List.mem_map] at h
  obtain ⟨item, hmem, hid⟩ := h
  rw [List.mem_filter] at hmem
  rw [List.find?_isSome]
  exact ⟨item, hmem.1, by simp [hid]⟩

/-- The pairing step produces a combined row for every matching identifier. -/
theorem pair_for_isSome {scan_results : List ComplianceScanResult}
    {smartsheet_results : List ComplianceItem} {comp_id : String}
    (h : comp_id ∈ matching_ids scan_results smartsheet_results) :
    (pair_for scan_results smartsheet_results comp_id).isSome := by
  obtain ⟨h1, h2⟩ := mem_matching_ids h
  have hs := scan_find?_isSome h1
  have hf := smartsheet_find?_isSome h2
  unfold pair_for
  rcases hfind1 : scan_results.find?
      (fun item => pyStrip item.compliance_id == comp_id) with _ | scan_item
  · rw [hfind1] at hs
    simp at hs
  rcases hfind2 : smartsheet_results.find?
      (fun item => pyStrip (pyStrOpt item.compliance_id) == comp_id) with _ | sm
  · rw [hfind2] at hf
    simp at hf
  rw [hfind1, hfind2]
  simp

/-- A combined row is keyed by the identifier it was paired for. -/
theorem pair_for_key {scan_results : List ComplianceScanResult}
    {smartsheet_results : List ComplianceItem} {comp_id : String}
    {e : ItemDict} (h : pair_for scan_results smartsheet_results comp_id = some e) :
    matched_row_id e = comp_id := by
  unfold pair_for at h
  rcases hfind1 : scan_results.find?
      (fun item => pyStrip item.compliance_id == comp_id) with _ | scan_item <;>
    rw [hfind1] at h
  · exact absurd h (by simp)
  rcases hfind2 : smartsheet_results.find?
      (fun item => pyStrip (pyStrOpt item.compliance_id) == comp_id) with _ | sm <;>
    rw [hfind2] at h
  · exact absurd h (by simp)
  have hkey := List.find?_some hfind2
  rw [beq_iff_eq] at hkey
  cases h
  exact hkey

/-- The filter of a keyed `filterMap` over a duplicate-free list at one of
its members is the singleton of that member's image. -/
theorem filterMap_key_singleton (l : List String)
    (f : String → Option ItemDict) (hnd : l.Nodup)
    (hkey : ∀ id ∈ l, ∀ e, f id = some e → matched_row_id e = id)
    (comp_id : String) (hmem : comp_id ∈ l) (e₀ : ItemDict)
    (he₀ : f comp_id = some e₀) :
    (l.filterMap f).filter (fun e => matched_row_id e == comp_id) = [e₀] := by
  induction l with
  | nil => cases hmem
  | cons a l ih =>
    have hnd' := (List.nodup_cons.mp hnd).2
    have hnotmem := (List.nodup_cons.mp hnd).1
    rcases List.mem_cons.mp hmem with rfl | hmem'
    · rw [List.filterMap_cons, he₀, List.filter_cons]
      have hk : (matched_row_id e₀ == comp_id) = true := by
        simp [hkey comp_id (List.mem_cons_self comp_id l) e₀ he₀]
      rw [if_pos (by simp [hk])]
      suffices hnil :
          (l.filterMap f).filter (fun e => matched_row_id e == comp_id) = [] by
        rw [hnil]
      rw [List.filter_eq_nil_iff]
      intro e he
      obtain ⟨id', hid', hfid'⟩ := List.mem_filterMap.mp he
      have hke : matched_row_id e = id' :=
        hkey id' (List.mem_cons_of_mem _ hid') e hfid'
      have hne : id' ≠ comp_id := fun hcontra => hnotmem (hcontra ▸ hid')
      simp [hke, hne]
    · have hane : a ≠ comp_id := fun hcontra => hnotmem (hcontra ▸ hmem')
      have ihl := ih hnd'
        (fun id hid e he => hkey id (List.mem_cons_of_mem _ hid) e he) hmem'
      rw [List.filterMap_cons]
      rcases hfa : f a with _ | ea
      · exact ihl
      · rw [List.filter_cons]
        have hk : (matched_row_id ea == comp_id) = false := by
          have := hkey a (List.mem_cons_self a l) ea hfa
          simp [this, hane]
        rw [if_neg (by simp [hk])]
        exact ihl

/-- The scan-side identifier set is no larger than the scan input. -/
theorem scan_id_set_length_le (scan_results : List ComplianceScanResult) :
    (scan_id_set scan_results).length ≤ scan_results.length := by
  unfold scan_id_set
  refine le_trans (List.Sublist.length_le (List.dedup_sublist _)) ?_
  rw [List.length_map]
  exact List.Sublist.length_le (List.filter_sublist _)

/-- The register-side identifier set is no larger than the register input. -/
theorem smartsheet_id_set_length_le (smartsheet_results : List ComplianceItem) :
    (smartsheet_id_set smartsheet_results).length ≤ smartsheet_results.length := by
  unfold smartsheet_id_set
  refine le_trans (List.Sublist.length_le (List.dedup_sublist _)) ?_
  rw [List.length_map]
  exact List.Sublist.length_le (List.filter_sublist _)

/-- C2: for every pair of input sequences, the `ComparisonResult` satisfies
`match_count = len(matched_items)`, the counts are the full input lengths,
and `match_count ≤ min(scan_count, smartsheet_count)`. -/
theorem claim_c2_matcher_count_invariant
    (scan_results : List ComplianceScanResult)
    (smartsheet_results : List ComplianceItem) :
    (compare_results scan_results smartsheet_results).match_count
        = (compare_results scan_results smartsheet_results).matched_items.length
      ∧ (compare_results scan_results smartsheet_results).scan_count
        = scan_results.length
      ∧ (compare_results scan_results smartsheet_results).smartsheet_count
        = smartsheet_results.length
      ∧ (compare_results scan_results smartsheet_results).match_count
        ≤ min (compare_results scan_results smartsheet_results).scan_count
            (compare_results scan_results smartsheet_results).smartsheet_count := by
  refine ⟨?_, rfl, rfl, ?_⟩
  · exact (length_filterMap_of_isSome
      (pair_for scan_results smartsheet_results)
      (matching_ids scan_results smartsheet_results)
      (fun id hid => pair_for_isSome hid)).symm
  · refine Nat.le_min.mpr ⟨?_, ?_⟩
    · exact le_trans
        (List.Sublist.length_le (List.filter_sublist (scan_id_set scan_results)))
        (scan_id_set_length_le scan_results)
    · have hnd : (matching_ids scan_results smartsheet_results).Nodup :=
        List.Nodup.filter _ (List.nodup_dedup _)
      have hsub : matching_ids scan_results smartsheet_results
          ⊆ smartsheet_id_set smartsheet_results :=
        fun x hx => (mem_matching_ids hx).2
      exact le_trans (hnd.subperm hsub).length_le
        (smartsheet_id_set_length_le smartsheet_results)

/-- C5: a matched identifier is paired from the first-encountered item on
each side; the pair appears exactly once among the matched rows keyed by that
identifier, and no item carrying that identifier (first or duplicate) appears
in the unmatched list of its side. -/
theorem claim_c5_first_match_pairing
    (scan_results : List ComplianceScanResult)
    (smartsheet_results : List ComplianceItem) (comp_id : String)
    (h : comp_id ∈ matching_ids scan_results smartsheet_results) :
    ∃ scan_item smartsheet_item,
      scan_results.find? (fun item => pyStrip item.compliance_id == comp_id)
          = some scan_item
      ∧ smartsheet_results.find?
          (fun item => pyStrip (pyStrOpt item.compliance_id) == comp_id)
          = some smartsheet_item
      ∧ ((compare_results scan_results smartsheet_results).matched_items.filter
          (fun e => matched_row_id e == comp_id))
          = [combine_item scan_item smartsheet_item]
      ∧ (∀ x ∈ (compare_results scan_results smartsheet_results).unmatched_scan_items,
          ¬(pyStrip x.compliance_id = comp_id))
      ∧ (∀ y ∈ (compare_results scan_results
            smartsheet_results).unmatched_smartsheet_items,
          ¬(pyStrip (pyStrOpt y.compliance_id) = comp_id)) := by
  obtain ⟨h1, h2⟩ := mem_matching_ids h
  obtain ⟨scan_item, hfind1⟩ := Option.isSome_iff_exists.mp (scan_find?_isSome h1)
  obtain ⟨smartsheet_item, hfind2⟩ :=
    Option.isSome_iff_exists.mp (smartsheet_find?_isSome h2)
  have hpair : pair_for scan_results smartsheet_results comp_id
      = some (combine_item scan_item smartsheet_item) := by
    unfold pair_for
    rw [hfind1, hfind2]
  have hnd : (matching_ids scan_results smartsheet_results).Nodup :=
    List.Nodup.filter _ (List.nodup_dedup _)
  refine ⟨scan_item, smartsheet_item, hfind1, hfind2, ?_, ?_, ?_⟩
  · exact filterMap_key_singleton _ _ hnd
      (fun id hid e he => pair_for_key he) comp_id h _ hpair
  · intro x hx heq
    simp only [compare_results, List.mem_filter] at hx
    rw [heq] at hx
    simp [h] at hx
  · intro y hy heq
    simp only [compare_results, List.mem_filter] at hy
    rw [heq] at hy
    simp [h] at hy

/-- Witness for C5 at a concrete input: identifier `"X-01"` appears twice in
the scan input; only the first is paired and neither copy is unmatched. -/
theorem claim_c5_witness :
    ("X-01" ∈ matching_ids c5_scan c5_sheet)
    ∧ (∃ scan_item smartsheet_item,
        c5_scan.find? (fun item => pyStrip item.compliance_id == "X-01")
            = some scan_item
        ∧ c5_sheet.find?
            (fun item => pyStrip (pyStrOpt item.compliance_id) == "X-01")
            = some smartsheet_item
        ∧ ((compare_results c5_scan c5_sheet).matched_items.filter
            (fun e => matched_row_id e == "X-01"))
            = [combine_item scan_item smartsheet_item]
        ∧ (∀ x ∈ (compare_results c5_scan c5_sheet).unmatched_scan_items,
            ¬(pyStrip x.compliance_id = "X-01"))
        ∧ (∀ y ∈ (compare_results c5_scan c5_sheet).unmatched_smartsheet_items,
            ¬(pyStrip (pyStrOpt y.compliance_id) = "X-01"))) :=
  ⟨by decide, claim_c5_first_match_pairing c5_scan c5_sheet "X-01" (by decide)⟩

/-- Membership in the set model after an insertion. -/
theorem mem_addToSet_self (l : List String) (s : String) : s ∈ addToSet l s := by
  unfold addToSet
  split
  · assumption
  · simp

/-- Insertion preserves the existing members of the set model. -/
theorem mem_addToSet_of_mem {l : List String} {x : String} (s : String)
    (h : x ∈ l) : x ∈ addToSet l s := by
  unfold addToSet
  split
  · assumption
  · simp [h]

/-- Conditional insertion preserves the existing members of the set model. -/
theorem mem_ite_addToSet {l : List String} {x : String} (c : Prop)
    [Decidable c] (s : String) (h : x ∈ l) :
    x ∈ if c then addToSet l s else l := by
  split
  · exact mem_addToSet_of_mem s h
  · exact h

/-- Lowercasing maps no character onto the space character except the space
itself. -/
theorem pyLowerChar_ne_space {c : Char} (h : c ≠ ' ') : pyLowerChar c ≠ ' ' := by
  unfold pyLowerChar
  rcases hfind : uppercase_map.find? (fun p => p.1 == c) with _ | p <;> rw [hfind]
  · simpa using h
  · have hp : p ∈ uppercase_map := List.mem_of_find?_eq_some hfind
    have hall : ∀ q ∈ uppercase_map, q.2 ≠ ' ' := by decide
    simpa using hall p hp

/-- Replacing a character that does not occur in a string is the identity. -/
theorem replaceChar_eq_self {a : Char} (b : Char) {s : String}
    (h : ∀ c ∈ s.data, c ≠ a) : replaceChar a b s = s := by
  unfold replaceChar
  have hmap : s.data.map (fun c => if c == a then b else c) = s.data.map id :=
    List.map_congr_left (fun c hc => by simp [h c hc])
  rw [hmap, List.map_id]

/-- A string without spaces lowercases to a string without spaces. -/
theorem pyLower_no_space {s : String} (h : containsChar ' ' s = false) :
    ∀ c ∈ (pyLower s).data, c ≠ ' ' := by
  intro c hc
  unfold pyLower at hc
  simp only [List.mem_map] at hc
  obtain ⟨c₀, hc₀, rfl⟩ := hc
  have hne : c₀ ≠ ' ' := by
    intro hcontra
    unfold containsChar at h
    rw [hcontra] at hc₀
    have htrue : List.elem ' ' s.data = true := List.elem_iff.mpr hc₀
    rw [show s.data.contains ' ' = List.elem ' ' s.data from rfl, htrue] at h
    cases h
  exact pyLowerChar_ne_space hne

/-- C6 counterexample: the variant set derived for the label
`"Cloud_Provider"` is not `{"cloud_provider", "cloud provider"}` — it also
contains the separator-free form `"cloudprovider"`, which the derivation
always adds. -/
theorem claim_c6_counterexample :
    ¬ (∀ s : String, s ∈ placeholder_variants "Cloud_Provider"
        ↔ (s = "cloud_provider" ∨ s = "cloud provider")) := by
  intro hall
  have h := (hall "cloudprovider").mp (by decide)
  rcases h with h | h <;> exact absurd h (by decide)

/-- C6 as amended: for every label containing an underscore the variant set
contains both the lowercase space form and the lowercase underscore form, and
for `"Cloud_Provider"` the derived set is exactly
`{"cloud_provider", "cloud provider", "cloudprovider"}`. -/
theorem claim_c6_variant_closure :
    (∀ orig_title : String, containsChar '_' orig_title = true →
        replaceChar '_' ' ' (pyLower orig_title) ∈ placeholder_variants orig_title
        ∧ replaceChar ' ' '_' (pyLower orig_title) ∈ placeholder_variants orig_title)
    ∧ (∀ s : String, s ∈ placeholder_variants "Cloud_Provider"
        ↔ (s = "cloud_provider" ∨ s = "cloud provider" ∨ s = "cloudprovider")) := by
  constructor
  · intro orig_title hu
    unfold placeholder_variants
    simp only [hu, if_true]
    constructor
    · apply mem_ite_addToSet
      apply mem_ite_addToSet
      apply mem_addToSet_of_mem
      apply mem_ite_addToSet
      exact mem_addToSet_self _ _
    · by_cases hsp : containsChar ' ' orig_title = true
      · apply mem_ite_addToSet
        apply mem_ite_addToSet
        apply mem_addToSet_of_mem
        rw [if_pos hsp]
        exact mem_addToSet_self _ _
      · replace hsp : containsChar ' ' orig_title = false := by
          simpa using hsp
        have heq : replaceChar ' ' '_' (pyLower orig_title) = pyLower orig_title :=
          replaceChar_eq_self '_' (pyLower_no_space hsp)
        rw [heq]
        apply mem_ite_addToSet
        apply mem_ite_addToSet
        apply mem_addToSet_of_mem
        rw [if_neg (by simp [hsp])]
        apply mem_addToSet_of_mem
        exact mem_addToSet_self _ _
  · intro s
    rw [show placeholder_variants "Cloud_Provider"
        = ["cloud_provider", "cloud provider", "cloudprovider"] from by decide]
    simp

/-- Witness for C6 at the concrete label `"Cloud_Provider"`. -/
theorem claim_c6_witness :
    containsChar '_' "Cloud_Provider" = true
    ∧ (replaceChar '_' ' ' (pyLower "Cloud_Provider")
          ∈ placeholder_variants "Cloud_Provider"
        ∧ replaceChar ' ' '_' (pyLower "Cloud_Provider")
          ∈ placeholder_variants "Cloud_Provider") :=
  ⟨by decide, claim_c6_variant_closure.1 "Cloud_Provider" (by decide)⟩

/-- If the pattern does not occur (case-insensitively) in the text, the
replacement scan leaves the text unchanged, whatever the fuel. -/
theorem replaceCIAux_no_occurrence (pat rep : List Char) (fuel : Nat)
    (l : List Char) (h : occursCI pat l = false) :
    replaceCIAux pat rep fuel l = l := by
  induction fuel generalizing l with
  | zero => rfl
  | succ fuel ih =>
    cases l with
    | nil => rfl
    | cons c rest =>
      unfold occursCI occursWith at h
      rw [Bool.or_eq_false_iff] at h
      rw [show replaceCIAux pat rep (fuel + 1) (c :: rest)
          = if isPrefixWith ciEq pat (c :: rest) = true then
              rep ++ replaceCIAux pat rep fuel (rest.drop (pat.length - 1))
            else c :: replaceCIAux pat rep fuel rest from rfl]
      rw [if_neg (by simp [h.1])]
      rw [ih rest h.2]

/-- If the pattern does not occur in the text, `replaceCI` is the identity. -/
theorem replaceCI_no_occurrence (pat rep l : List Char)
    (h : occursCI pat l = false) : replaceCI pat rep l = l :=
  replaceCIAux_no_occurrence pat rep l.length l h

/-- A successful substitution pass implies that every placeholder value's
replacement template parsed successfully. -/
theorem substitute_ok_parse (mapping : List (String × String)) (text r : String)
    (h : substitute mapping text = .ok r) :
    ∀ pv ∈ mapping, ∃ rep, parse_template pv.2.data = .ok rep := by
  induction mapping generalizing text with
  | nil => intro pv hpv; cases hpv
  | cons p rest ih =>
    intro pv hpv
    unfold substitute at h
    rw [List.foldlM_cons] at h
    rcases happ : apply_placeholder text p.1 p.2 with e | t1 <;> rw [happ] at h
    · simp [Bind.bind, Except.bind] at h
    · simp only [Bind.bind, Except.bind] at h
      rcases List.mem_cons.mp hpv with rfl | hpv'
      · unfold apply_placeholder at happ
        rcases hparse : parse_template pv.2.data with e | rep <;>
          rw [hparse] at happ
        · cases happ
        · exact ⟨rep, rfl⟩
      · exact ih t1 h pv hpv'

/-- C7 counterexample: substitution is not idempotent in general — with the
map `{b: x, a: [b]}` (iterated in that order) one application of the
substitution turns `"[a]"` into `"[b]"`, and a second application turns that
into `"x"`. -/
theorem claim_c7_counterexample :
    substitute [("b", "x"), ("a", "[b]")] "[a]" = .ok "[b]"
    ∧ substitute [("b", "x"), ("a", "[b]")] "[b]" = .ok "x"
    ∧ ("x" : String) ≠ "[b]" :=
  ⟨by decide, by decide, by decide⟩

/-- C7 as amended: the substitution is idempotent on its own output whenever
the substituted text contains no remaining case-insensitive bracketed
occurrence of any placeholder name of the map — re-running the pass returns
the text unchanged. -/
theorem claim_c7_idempotent_when_no_tokens_remain
    (mapping : List (String × String)) (text r : String)
    (hok : substitute mapping text = .ok r)
    (hno : ∀ pv ∈ mapping, occursCI ('[' :: pv.1.data ++ [']']) r.data = false) :
    substitute mapping r = .ok r := by
  induction mapping generalizing text with
  | nil => rfl
  | cons p rest ih =>
    unfold substitute at hok ⊢
    rw [List.foldlM_cons] at hok ⊢
    rcases happ : apply_placeholder text p.1 p.2 with e | t1 <;> rw [happ] at hok
    · simp [Bind.bind, Except.bind] at hok
    · simp only [Bind.bind, Except.bind] at hok
      have happ_r : apply_placeholder r p.1 p.2 = .ok r := by
        unfold apply_placeholder at happ ⊢
        rcases hparse : parse_template p.2.data with e | rep <;>
          rw [hparse] at happ
        · cases happ
        · show Except.ok (String.mk
              (replaceCI ('[' :: p.1.data ++ [']']) rep r.data)) = Except.ok r
          rw [replaceCI_no_occurrence _ _ _ (hno p (List.mem_cons_self p rest))]
      rw [happ_r]
      simp only [Bind.bind, Except.bind]
      exact ih t1 hok (fun pv hpv => hno pv (List.mem_cons_of_mem p hpv))

/-- Witness for C7 at a concrete input: after substituting `{a: AWS}` into
`"[a]"` no token remains, and re-substituting is the identity. -/
theorem claim_c7_witness :
    (substitute [("a", "AWS")] "[a]" = .ok "AWS"
      ∧ (∀ pv ∈ [("a", "AWS")],
          occursCI ('[' :: pv.1.data ++ [']']) ("AWS" : String).data = false))
    ∧ substitute [("a", "AWS")] "AWS" = .ok "AWS" :=
  ⟨⟨by decide, by decide⟩,
    claim_c7_idempotent_when_no_tokens_remain [("a", "AWS")] "[a]" "AWS"
      (by decide) (by decide)⟩

/-- C10: the raw placeholder value is passed to `re.sub` as a replacement
template, so backslash escapes in the value are interpreted: the value `\t`
(backslash + t) inserts a TAB character instead of the verbatim two
characters, and the invalid escape `\d` raises an error instead of producing
a result. -/
theorem claim_c10_value_is_template :
    substitute [("a", "\\t")] "[a]" = .ok "\t"
    ∧ ("\t" : String) ≠ "\\t"
    ∧ substitute [("a", "\\d")] "[a]" = .error "bad escape \\d" :=
  ⟨by decide, by decide, by decide⟩

/-- C8 as amended: a row whose resolved identifier is `None` (missing column,
missing cell, or null cell value) is dropped entirely — provided its
rationale substitution did not raise, the row produces no item and no
error. -/
theorem claim_c8_null_identifier_dropped (column_ids : ColumnIds)
    (placeholder_mapping : List (String × String)) (row : Row)
    (hid : column_ids.compliance_id.bind (fun cid => row_value row cid) = none)
    (dr : Option String)
    (hsub : rationale_of column_ids placeholder_mapping row = .ok dr) :
    process_row column_ids placeholder_mapping row = .ok none := by
  unfold process_row
  rw [hsub, hid]

/-- Witness for C8 at a concrete input: an empty row under an empty column
map resolves no identifier and is silently dropped. -/
theorem claim_c8_witness :
    (({} : ColumnIds).compliance_id.bind (fun cid => row_value ({} : Row) cid)
        = none
      ∧ rationale_of ({} : ColumnIds) [] ({} : Row) = .ok none)
    ∧ process_row ({} : ColumnIds) [] ({} : Row) = .ok none :=
  ⟨⟨rfl, rfl⟩,
    claim_c8_null_identifier_dropped {} [] {} rfl none rfl⟩

/-- C8 counterexample: a row whose resolved identifier is the empty string is
NOT dropped — `is not None` lets `""` through, and the row becomes a
`ComplianceItem` with `compliance_id = ""`. -/
theorem claim_c8_counterexample :
    row_value { cells := [{ column_id := 1, value := some (CellVal.str "") }] } 1
        = some (CellVal.str "")
    ∧ extract_compliance_items c8_sheet { client := "ACME" }
        = .ok [{ compliance_id := some "" }] :=
  ⟨by decide, by decide⟩
